import Mathlib

/-
Verification of the deterministic reconciliation core of the
PayrollLLMExtractor repository against its specification.

Two components are embedded, translated statement-by-statement from the
Python source:

  * the financial-statement validator
    (src/financial_data_code_for_refernce/src/step5_validation.py,
    class FinancialValidator), and
  * the accuracy calculator / structural differ
    (src/accuracy_calculator/calculate_accuracy.py, class AccuracyCalculator).

Modelling conventions, fixed once here:

  * JSON-shaped Python values are the mutual inductive type `Json`
    (arrays and objects carry their own list types so that all recursion
    is structural and reduces in the kernel).  Python dicts are ordered
    association lists; the source never relies on duplicate keys, since
    real dicts cannot have them.
  * Python numbers (int and float) are embedded as exact fractions
    (`PyNum`, an integer numerator over a positive natural denominator,
    not reduced; `PyNum.toRat` gives the rational value).  The spec
    itself states every numeric comparison in exact decimal terms
    ("parse both as decimal numbers"), and every concrete value the
    claims exercise is far from any binary-rounding boundary, so exact
    fractions and IEEE doubles decide all modelled comparisons alike.
    Equality and order on `PyNum` are value-level (cross-multiplied),
    matching Python `==` and `<` on numbers.
  * Python operations that can raise are modelled in `Except String`,
    with the error string naming the Python exception class (the
    human-readable text CPython attaches to an exception is not
    modelled; no claim inspects it).  Code that Python protects with
    try/except is modelled by matching on the `Except` result exactly
    where the handler sits in the source.
  * `float(...)` string parsing is modelled for the sign/decimal forms
    ("123", "-1.5", ".5", "1.", with surrounding whitespace); exotic
    accepted forms (exponents, inf/nan, underscores) are outside the
    modelled fragment and no claim exercises them.
  * `str.strip()`/`str.lower()` are modelled over ASCII (the Python
    versions also handle non-ASCII whitespace/case, which no claim
    exercises).
-/

/- ### Python numbers: exact unreduced fractions -/

/-- A Python number (int or float), as the exact fraction `num / den`.
Every constructor and operation below keeps `den` positive; fractions
are not reduced, so comparisons cross-multiply. -/
structure PyNum where
  num : Int
  den : Nat
deriving DecidableEq

namespace PyNum

/-- A Python int. -/
def ofInt (n : Int) : PyNum := ⟨n, 1⟩

/-- Rational value of a Python number. -/
def toRat (a : PyNum) : ℚ := (a.num : ℚ) / (a.den : ℚ)

/-- Python `a + b`. -/
def add (a b : PyNum) : PyNum := ⟨a.num * b.den + b.num * a.den, a.den * b.den⟩

/-- Python `-a`. -/
def neg (a : PyNum) : PyNum := ⟨-a.num, a.den⟩

/-- Python `a - b`. -/
def sub (a b : PyNum) : PyNum := add a (neg b)

/-- Python `a * b`. -/
def mul (a b : PyNum) : PyNum := ⟨a.num * b.num, a.den * b.den⟩

/-- Python `a == b` on numbers (value equality of the fractions). -/
def eqB (a b : PyNum) : Bool := a.num * b.den == b.num * a.den

/-- Python `a < b` on numbers (denominators are positive throughout). -/
def ltB (a b : PyNum) : Bool := a.num * b.den < b.num * a.den

/-- Python `abs(a)`. -/
def absN (a : PyNum) : PyNum := if a.num < 0 then ⟨-a.num, a.den⟩ else a

/-- Python truthiness of a number (`0` and `0.0` are falsy). -/
def truthy (a : PyNum) : Bool := a.num != 0

end PyNum

mutual

inductive Json where
  | null : Json
  | bool (b : Bool) : Json
  | num (q : PyNum) : Json
  | str (s : String) : Json
  | arr (xs : JsonList) : Json
  | obj (kvs : JsonFields) : Json

inductive JsonList where
  | nil : JsonList
  | cons (hd : Json) (tl : JsonList) : JsonList

inductive JsonFields where
  | nil : JsonFields
  | cons (k : String) (v : Json) (tl : JsonFields) : JsonFields

end

namespace JsonFields

/-- Python `d.get(k)` on an association list: value of the first matching key. -/
def dLookup (k : String) : JsonFields → Option Json
  | .nil => none
  | .cons k' v tl => if k = k' then some v else dLookup k tl

/-- Python `d.get(k, default)`. -/
def dLookupD (k : String) (kvs : JsonFields) (d : Json) : Json :=
  match dLookup k kvs with
  | some v => v
  | none => d

/-- Python `k in d` for a dict. -/
def keyMem (k : String) : JsonFields → Bool
  | .nil => false
  | .cons k' _ tl => k = k' || keyMem k tl

/-- Python `len(d)` for a dict. -/
def fLen : JsonFields → Nat
  | .nil => 0
  | .cons _ _ tl => fLen tl + 1

end JsonFields

namespace JsonList

/-- Python `len(xs)` for a list. -/
def jLen : JsonList → Nat
  | .nil => 0
  | .cons _ tl => jLen tl + 1

/-- JsonList as a Lean list. -/
def toList : JsonList → List Json
  | .nil => []
  | .cons x tl => x :: toList tl

end JsonList

/- ### String helpers: Python substring test, strip, lower, replace -/

/-- Whether `n` is a prefix of `h`, over character lists. -/
def charsPrefixOf : List Char → List Char → Bool
  | [], _ => true
  | _ :: _, [] => false
  | a :: as, b :: bs => a == b && charsPrefixOf as bs

/-- Whether `n` occurs as a contiguous sublist of `h`. -/
def charsContains (n : List Char) : List Char → Bool
  | [] => charsPrefixOf n []
  | c :: rest => charsPrefixOf n (c :: rest) || charsContains n rest

/-- Python `needle in hay` on strings (contiguous substring test). -/
def containsText (needle hay : String) : Bool :=
  charsContains needle.toList hay.toList

/-- Python `s.replace(',', '')`: drop every comma. -/
def dropCommas (s : String) : String :=
  String.mk (s.toList.filter (fun c => c != ','))

/-- Python `s.replace(',', '').replace(' ', '')`: drop commas and spaces. -/
def dropCommasSpaces (s : String) : String :=
  String.mk (s.toList.filter (fun c => c != ',' && c != ' '))

/-- ASCII whitespace, as recognised by Python `str.strip()`. -/
def isPySpace (c : Char) : Bool :=
  c == ' ' || c == '\t' || c == '\n' || c == '\r' || c == '\x0b' || c == '\x0c'

/-- Python `s.strip()` (ASCII fragment). -/
def pyStrip (s : String) : String :=
  String.mk (((s.toList.dropWhile isPySpace).reverse.dropWhile isPySpace).reverse)

/-- Lower-case one ASCII character. -/
def charLower (c : Char) : Char :=
  if 'A' ≤ c && c ≤ 'Z' then Char.ofNat (c.toNat + 32) else c

/-- Python `s.lower()` (ASCII fragment). -/
def pyLowerStr (s : String) : String :=
  String.mk (s.toList.map charLower)

/- ### Python float() parsing, modelled over exact fractions -/

/-- Numeric value of a decimal digit character. -/
def digitVal (c : Char) : Nat := c.toNat - '0'.toNat

/-- Value of a list of decimal digit characters, most significant first. -/
def digitsVal : List Char → Nat
  | [] => 0
  | c :: rest => digitsVal rest + digitVal c * 10 ^ rest.length

/-- Unsigned decimal parse: digits, optionally followed by a point and more
digits; at least one digit must be present overall. -/
def parseUnsigned (cs : List Char) : Option PyNum :=
  match cs.dropWhile Char.isDigit with
  | [] =>
    if (cs.takeWhile Char.isDigit).isEmpty then none
    else some (PyNum.ofInt (digitsVal (cs.takeWhile Char.isDigit)))
  | '.' :: frac =>
    if frac.all Char.isDigit && !((cs.takeWhile Char.isDigit).isEmpty && frac.isEmpty) then
      some ⟨digitsVal (cs.takeWhile Char.isDigit) * 10 ^ frac.length + digitsVal frac,
        10 ^ frac.length⟩
    else none
  | _ => none

/-- Python `float(s)` on a string, for the sign/decimal fragment (see the
header comment): `none` models a `ValueError`.  `float` ignores
surrounding whitespace. -/
def pyFloat (s : String) : Option PyNum :=
  match (pyStrip s).toList with
  | '-' :: rest => (parseUnsigned rest).map PyNum.neg
  | '+' :: rest => parseUnsigned rest
  | cs => parseUnsigned cs

/- ### Python str() rendering -/

/-- Rendering of a Python number in messages.  The source only ever
interpolates floats produced by `float(...)`; CPython renders a float
holding an integral value as "1000.0", which the `den = 1` arm
reproduces (every such interpolated value in scope parses from an
integer string, so has denominator 1).  Non-integral fractions fall back
to "num/den", a deviation from CPython that no claim evaluates. -/
def pyFloatRepr (q : PyNum) : String :=
  if q.den = 1 then toString q.num ++ ".0"
  else toString q.num ++ "/" ++ toString q.den

mutual

/-- Python `repr(...)` of a JSON-shaped value (used inside containers). -/
def pyRepr : Json → String
  | .null => "None"
  | .bool true => "True"
  | .bool false => "False"
  | .num q => pyFloatRepr q
  | .str s => "\x27" ++ s ++ "\x27"
  | .arr xs => "[" ++ pyReprList xs ++ "]"
  | .obj kvs => "\x7b" ++ pyReprFields kvs ++ "\x7d"

def pyReprList : JsonList → String
  | .nil => ""
  | .cons x .nil => pyRepr x
  | .cons x tl => pyRepr x ++ ", " ++ pyReprList tl

def pyReprFields : JsonFields → String
  | .nil => ""
  | .cons k v .nil => "\x27" ++ k ++ "\x27: " ++ pyRepr v
  | .cons k v tl => "\x27" ++ k ++ "\x27: " ++ pyRepr v ++ ", " ++ pyReprFields tl

end

/-- Python `str(...)`: a string renders as itself, anything else as its repr. -/
def pyStr : Json → String
  | .str s => s
  | j => pyRepr j

/-- Python `value is None or value == ''` (only `None` and the empty string
satisfy it; no other modelled value compares equal to `""`). -/
def pyIsNullOrEmpty : Json → Bool
  | .null => true
  | .str s => s == ""
  | _ => false

/- ### FinancialValidator (step5_validation.py)

The validator's checks append to shared error/warning lists; since no
check reads the lists, each check is embedded as returning its own
(errors, warnings) contribution, concatenated in source order. -/

/-- Python `j.get(k, d)`: raises `AttributeError` unless `j` is a dict. -/
def pyGetD (j : Json) (k : String) (d : Json) : Except String Json :=
  match j with
  | .obj kvs => .ok (kvs.dLookupD k d)
  | _ => .error "AttributeError"

/-- FinancialValidator._is_numeric: ints, floats (and bools, which are
ints in Python) are numeric; a string is numeric when it parses as a
float after dropping commas and spaces; everything else is not. -/
def is_numeric : Json → Bool
  | .num _ => true
  | .bool _ => true
  | .str s => (pyFloat (dropCommasSpaces s)).isSome
  | _ => false

/-- Scan of `_extract_numeric_value`'s loop over `years_dict.items()`:
skip `None`/empty entries, return the first int/float directly (bools
count as ints, `float(True)` being `1.0`), return the first string that
parses after dropping commas and spaces, skip anything else. -/
def extract_numeric_go : JsonFields → Option PyNum
  | .nil => none
  | .cons _ v tl =>
    match v with
    | .null => extract_numeric_go tl
    | .num q => some q
    | .bool b => some (PyNum.ofInt (if b then 1 else 0))
    | .str s =>
      if s = "" then extract_numeric_go tl
      else
        match pyFloat (dropCommasSpaces s) with
        | some q => some q
        | none => extract_numeric_go tl
    | _ => extract_numeric_go tl

/-- FinancialValidator._extract_numeric_value: iterating `.items()` raises
`AttributeError` when the argument is not a dict. -/
def extract_numeric_value (j : Json) : Except String (Option PyNum) :=
  match j with
  | .obj kvs => .ok (extract_numeric_go kvs)
  | _ => .error "AttributeError"

/-- Message appended by the accounting-equation check (note the capital
"Accounting"). -/
def accountingEquationMsg (a l e : PyNum) : String :=
  "Accounting equation failed: Assets (" ++ pyFloatRepr a ++ ") ≠ Liabilities ("
    ++ pyFloatRepr l ++ ") + Equity (" ++ pyFloatRepr e ++ ")"

/-- Body of `_validate_accounting_equation`'s try block: the 1-unit
tolerance is `abs(assets_total - (liab_total + equity_total)) > 1`. -/
def validate_accounting_equation_body (m : JsonFields) :
    Except String (List String × List String) := do
  let ay ← pyGetD (m.dLookupD "AssetsTotal" (.obj .nil)) "years" (.obj .nil)
  let assets_total ← extract_numeric_value ay
  let ly ← pyGetD (m.dLookupD "LiabilitiesTotal" (.obj .nil)) "years" (.obj .nil)
  let liab_total ← extract_numeric_value ly
  let te ← pyGetD (m.dLookupD "Equity" (.obj .nil)) "TotalEquity" (.obj .nil)
  let ey ← pyGetD te "years" (.obj .nil)
  let equity_total ← extract_numeric_value ey
  match assets_total, liab_total, equity_total with
  | some a, some l, some e =>
    if PyNum.ltB (PyNum.ofInt 1) (PyNum.absN (a.sub (l.add e))) then
      .ok ([accountingEquationMsg a l e], [])
    else .ok ([], [])
  | _, _, _ => .ok ([], ["Cannot validate accounting equation - missing total values"])

/-- FinancialValidator._validate_accounting_equation: the whole body sits
in a try/except whose handler turns any exception into a warning. -/
def validate_accounting_equation (m : JsonFields) : List String × List String :=
  match validate_accounting_equation_body m with
  | .ok r => r
  | .error e => ([], ["Error validating accounting equation: " ++ e])

/-- Error message of the numeric-value check. -/
def nonNumericMsg (sec fname year : String) (v : Json) : String :=
  sec ++ "." ++ fname ++ " has non-numeric value for " ++ year
    ++ ": \x27" ++ pyStr v ++ "\x27"

/-- Loop of `_validate_numeric_values` over one field's `years.items()`. -/
def numeric_value_errors_years (sec fname : String) : JsonFields → List String
  | .nil => []
  | .cons year v tl =>
    (if pyIsNullOrEmpty v then []
     else if is_numeric v then []
     else [nonNumericMsg sec fname year v])
      ++ numeric_value_errors_years sec fname tl

/-- Loop of `_validate_numeric_values` over one section's fields: non-dict
fields are skipped; iterating a non-dict `years` raises. -/
def numeric_value_errors_fields (sec : String) :
    JsonFields → Except String (List String)
  | .nil => .ok []
  | .cons fname fobj tl =>
    match fobj with
    | .obj fkvs =>
      match fkvs.dLookupD "years" (.obj .nil) with
      | .obj ys => do
        let rest ← numeric_value_errors_fields sec tl
        .ok (numeric_value_errors_years sec fname ys ++ rest)
      | _ => .error "AttributeError"
    | _ => numeric_value_errors_fields sec tl

/-- Loop of `_validate_numeric_values` over the five section names:
absent sections are skipped; a present section that is not a dict raises
on `.items()`. -/
def validate_numeric_values_go (m : JsonFields) :
    List String → Except String (List String)
  | [] => .ok []
  | s :: rest =>
    if m.keyMem s then
      match m.dLookupD s .null with
      | .obj fields => do
        let es ← numeric_value_errors_fields s fields
        let more ← validate_numeric_values_go m rest
        .ok (es ++ more)
      | _ => .error "AttributeError"
    else validate_numeric_values_go m rest

/-- FinancialValidator._validate_numeric_values. -/
def validate_numeric_values (m : JsonFields) :
    Except String (List String × List String) := do
  let es ← validate_numeric_values_go m
    ["Equity", "NonCurrentLiabilities", "CurrentLiabilities",
     "NonCurrentAssets", "CurrentAssets"]
  .ok (es, [])

/-- Python `k in xs` for a list probed with a string `k` (string elements
compare by value; no other modelled element equals a string). -/
def arrHasStr (k : String) : JsonList → Bool
  | .nil => false
  | .cons (.str s) tl => s == k || arrHasStr k tl
  | .cons _ tl => arrHasStr k tl

/-- Python `k in j` for a string key: dict membership, substring on a
string, element test on a list; `TypeError` otherwise. -/
def pyContains (k : String) (j : Json) : Except String Bool :=
  match j with
  | .obj kvs => .ok (kvs.keyMem k)
  | .str s => .ok (containsText k s)
  | .arr xs => .ok (arrHasStr k xs)
  | _ => .error "TypeError"

/-- Python `j[k]` for a string key `k`. -/
def pySubscriptStr (j : Json) (k : String) : Except String Json :=
  match j with
  | .obj kvs =>
    match kvs.dLookup k with
    | some v => .ok v
    | none => .error "KeyError"
  | _ => .error "TypeError"

/-- The list comprehension of `_validate_subtotals`: representative values
of every sibling of TotalCurrentAssets that is a dict (an entry is `None`
when no year value of that sibling parses). -/
def component_values : JsonFields → Except String (List (Option PyNum))
  | .nil => .ok []
  | .cons k v tl =>
    if k = "TotalCurrentAssets" then component_values tl
    else
      match v with
      | .obj fkvs => do
        let x ← extract_numeric_value (fkvs.dLookupD "years" (.obj .nil))
        let rest ← component_values tl
        .ok (x :: rest)
      | _ => component_values tl

/-- Python `sum(xs)` over a list of optional numbers: adding `None` to the
running total raises `TypeError` (exactly what happens in
`_validate_subtotals` when a component has no representative value). -/
def pySum : List (Option PyNum) → Except String PyNum
  | [] => .ok (PyNum.ofInt 0)
  | none :: _ => .error "TypeError"
  | some q :: tl => do
    let r ← pySum tl
    .ok (q.add r)

/-- Python truthiness of an optional number (`None`, `0` and `0.0` are
falsy). -/
def truthyOptNum : Option PyNum → Bool
  | none => false
  | some q => q.truthy

/-- Warning message of the subtotal check. -/
def subtotalMsg (t s : PyNum) : String :=
  "CurrentAssets total (" ++ pyFloatRepr t ++ ") differs from sum of components ("
    ++ pyFloatRepr s ++ ")"

/-- FinancialValidator._validate_subtotals: guarded by the truthiness of
both the extracted total and the component sum; the 1% tolerance
compares `abs(total - components_sum) > components_sum * 0.01`. -/
def validate_subtotals (m : JsonFields) :
    Except String (List String × List String) := do
  let current_assets := m.dLookupD "CurrentAssets" (.obj .nil)
  let mem ← pyContains "TotalCurrentAssets" current_assets
  if mem then do
    let tj ← pySubscriptStr current_assets "TotalCurrentAssets"
    let ty ← pyGetD tj "years" (.obj .nil)
    let total ← extract_numeric_value ty
    let comps ← (match current_assets with
      | .obj kvs => component_values kvs
      | _ => .error "AttributeError")
    let components_sum ← pySum comps
    if truthyOptNum total && components_sum.truthy
        && PyNum.ltB (components_sum.mul ⟨1, 100⟩)
             (PyNum.absN ((total.getD (PyNum.ofInt 0)).sub components_sum)) then
      .ok ([], [subtotalMsg (total.getD (PyNum.ofInt 0)) components_sum])
    else .ok ([], [])
  else .ok ([], [])

/-- Python `len(j)`: defined for strings, lists and dicts. -/
def pyLen (j : Json) : Except String Nat :=
  match j with
  | .str s => .ok s.length
  | .arr xs => .ok xs.jLen
  | .obj kvs => .ok kvs.fLen
  | _ => .error "TypeError"

/-- Warning message of the cross-year consistency check. -/
def missingYearsMsg (sec fname : String) (k : Nat) : String :=
  sec ++ "." ++ fname ++ " missing data for " ++ toString k ++ " year(s)"

/-- Loop of `_validate_consistency` over one section's fields. -/
def consistency_warnings_fields (sec : String) (nYears : Nat) :
    JsonFields → Except String (List String)
  | .nil => .ok []
  | .cons fname fobj tl =>
    match fobj with
    | .obj fkvs => do
      let n ← pyLen (fkvs.dLookupD "years" (.obj .nil))
      let rest ← consistency_warnings_fields sec nYears tl
      .ok ((if n < nYears then [missingYearsMsg sec fname (nYears - n)] else [])
        ++ rest)
    | _ => consistency_warnings_fields sec nYears tl

/-- Loop of `_validate_consistency` over the two checked sections. -/
def validate_consistency_go (m : JsonFields) (nYears : Nat) :
    List String → Except String (List String)
  | [] => .ok []
  | s :: rest =>
    if m.keyMem s then
      match m.dLookupD s .null with
      | .obj fields => do
        let here ← consistency_warnings_fields s nYears fields
        let ws ← validate_consistency_go m nYears rest
        .ok (here ++ ws)
      | _ => .error "AttributeError"
    else validate_consistency_go m nYears rest

/-- FinancialValidator._validate_consistency. -/
def validate_consistency (m : JsonFields) :
    Except String (List String × List String) := do
  let yearsJ ← pyGetD (m.dLookupD "metadata" (.obj .nil)) "years" (.arr .nil)
  let n ← pyLen yearsJ
  if n < 2 then .ok ([], [])
  else do
    let ws ← validate_consistency_go m n ["Equity", "NonCurrentAssets"]
    .ok ([], ws)

/-- Keys of a dict, in order. -/
def JsonFields.keyList : JsonFields → List String
  | .nil => []
  | .cons k _ tl => k :: JsonFields.keyList tl

/-- Python `for x in j`: elements of a list, keys of a dict, characters of
a string; `TypeError` otherwise. -/
def pyIterate (j : Json) : Except String (List Json) :=
  match j with
  | .arr xs => .ok xs.toList
  | .obj kvs => .ok (kvs.keyList.map Json.str)
  | .str s => .ok (s.toList.map (fun c => Json.str (String.mk [c])))
  | _ => .error "TypeError"

/-- Python `j.lower()`: strings only. -/
def pyLower (j : Json) : Except String String :=
  match j with
  | .str s => .ok (pyLowerStr s)
  | _ => .error "AttributeError"

/-- Keyword set of the unmapped-items triage. -/
def critical_keywords : List String := ["total", "assets", "liabilities", "equity"]

/-- Warning message of the unmapped-items triage for one item (the label
is re-read by the f-string with `item.get('label_raw')`, default `None`). -/
def unmappedItemMsg (l : Json) : String :=
  "Potentially important item unmapped: \x27" ++ pyStr l ++ "\x27"

/-- Loop of `_validate_unmapped_items` over the unmapped items. -/
def unmapped_item_warnings : List Json → Except String (List String)
  | [] => .ok []
  | item :: rest => do
    let lraw ← pyGetD item "label_raw" (.str "")
    let label ← pyLower lraw
    let lraw2 ← pyGetD item "label_raw" .null
    let here := if critical_keywords.any (fun kw => containsText kw label) then
        [unmappedItemMsg lraw2]
      else []
    let ws ← unmapped_item_warnings rest
    .ok (here ++ ws)

/-- FinancialValidator._validate_unmapped_items. -/
def validate_unmapped_items (m : JsonFields) :
    Except String (List String × List String) := do
  let unmappedJ ← pyGetD (m.dLookupD "unmapped_items" (.obj .nil)) "items" (.arr .nil)
  let n ← pyLen unmappedJ
  let highWs := if n > 10 then
      ["High number of unmapped items (" ++ toString n ++ "). Check schema coverage."]
    else []
  let items ← pyIterate unmappedJ
  let ws ← unmapped_item_warnings items
  .ok ([], highWs ++ ws)

/-- Result record assembled by `validate_mapped_data`. -/
structure ValidationResult where
  accounting_equation_valid : Bool
  total_errors : Nat
  total_warnings : Nat
  errors : List String
  warnings : List String
  status : String
deriving DecidableEq

/-- FinancialValidator.validate_mapped_data: runs the five checks in
source order, concatenates their error/warning contributions, and
assembles the result.  `accounting_equation_valid` filters the errors
for the lowercase substring "accounting equation", exactly as the
source does. -/
def validate_mapped_data (mapped_data : JsonFields) : Except String ValidationResult := do
  let (e1, w1) := validate_accounting_equation mapped_data
  let (e2, w2) ← validate_numeric_values mapped_data
  let (e3, w3) ← validate_subtotals mapped_data
  let (e4, w4) ← validate_consistency mapped_data
  let (e5, w5) ← validate_unmapped_items mapped_data
  let errors := e1 ++ e2 ++ e3 ++ e4 ++ e5
  let warnings := w1 ++ w2 ++ w3 ++ w4 ++ w5
  .ok {
    accounting_equation_valid :=
      (errors.filter (fun e => containsText "accounting equation" e)).length == 0
    total_errors := errors.length
    total_warnings := warnings.length
    errors := errors
    warnings := warnings
    status := if errors.length == 0 then "PASS" else "FAIL" }

/- ### AccuracyCalculator (calculate_accuracy.py)

The calculator mutates a results record while traversing; the embedding
threads the record through the traversal exactly where the source
mutates it.  File loading in `calculate_accuracy` is I/O glue and is
elided: the embedded function starts from the two loaded value trees,
reset results, as the source does after `json.load`. -/

/-- A Python bool seen as a number (`True == 1` and `False == 0` hold in
Python because bool is a subclass of int). -/
def boolNum (b : Bool) : PyNum := ⟨if b then 1 else 0, 1⟩

mutual

/-- Python `==` on JSON-shaped values: numeric equality across int, float
and bool; element-wise on lists; key-wise (order-insensitive) on dicts;
`False` across any other type mix. -/
def pyEq : Json → Json → Bool
  | .null, .null => true
  | .bool a, .bool b => a == b
  | .bool a, .num b => PyNum.eqB (boolNum a) b
  | .num a, .bool b => PyNum.eqB a (boolNum b)
  | .num a, .num b => PyNum.eqB a b
  | .str a, .str b => a == b
  | .arr xs, .arr ys => pyEqList xs ys
  | .obj xs, .obj ys => xs.fLen == ys.fLen && pyEqFieldsSub xs ys
  | _, _ => false

def pyEqList : JsonList → JsonList → Bool
  | .nil, .nil => true
  | .cons x xs, .cons y ys => pyEq x y && pyEqList xs ys
  | _, _ => false

def pyEqFieldsSub : JsonFields → JsonFields → Bool
  | .nil, _ => true
  | .cons k v tl, ys =>
    (match ys.dLookup k with
     | some w => pyEq v w
     | none => false) && pyEqFieldsSub tl ys

end

/-- Branch 3 of `_values_match`: case-insensitive, whitespace-stripped
comparison of the two values' string representations (total, so the
bare `except` around it is dead code). -/
def stringFallback (v1 v2 : Json) : Bool :=
  pyLowerStr (pyStrip (pyStr v1)) == pyLowerStr (pyStrip (pyStr v2))

/-- AccuracyCalculator._values_match: exact equality first; for two
strings, numeric comparison with absolute tolerance
`abs(num1 - num2) < 0.01` — note this branch returns its boolean, it
does not fall through on a large difference — and parse failure falls
through to the case-insensitive string comparison. -/
def values_match (val1 val2 : Json) : Bool :=
  if pyEq val1 val2 then true
  else
    match val1, val2 with
    | .str a, .str b =>
      match pyFloat (dropCommas a), pyFloat (dropCommas b) with
      | some x, some y => PyNum.ltB (PyNum.absN (x.sub y)) ⟨1, 100⟩
      | _, _ => stringFallback val1 val2
    | _, _ => stringFallback val1 val2

/-- One field comparison record. -/
structure Comparison where
  field_path : String
  extracted_value : Json
  ground_truth_value : Json
  status : String

/-- AccuracyCalculator.compare_values: the null/empty cases first (a
populated extraction against a null/empty ground truth is a false
positive; a null/empty extraction against a populated ground truth is
missing), then the value-match predicate. -/
def compare_values (extracted ground_truth : Json) (field_path : String) : Comparison :=
  if pyIsNullOrEmpty ground_truth then
    { field_path := field_path, extracted_value := extracted,
      ground_truth_value := ground_truth,
      status := if pyIsNullOrEmpty extracted then "correct_null" else "false_positive" }
  else if pyIsNullOrEmpty extracted then
    { field_path := field_path, extracted_value := extracted,
      ground_truth_value := ground_truth, status := "missing" }
  else
    { field_path := field_path, extracted_value := extracted,
      ground_truth_value := ground_truth,
      status := if values_match extracted ground_truth then "correct" else "incorrect" }

/-- Leaf unwrapping used by `compare_field_structure`: a dict's `value`
entry (default `None`), a bare scalar as itself. -/
def extract_leaf_value : Json → Json
  | .obj kvs => kvs.dLookupD "value" .null
  | j => j

/-- AccuracyCalculator.compare_field_structure. -/
def compare_field_structure (extracted_field ground_truth_field : Json)
    (field_path : String) : Comparison :=
  compare_values (extract_leaf_value extracted_field)
    (extract_leaf_value ground_truth_field) field_path

/-- The results record (`self.results`). -/
structure Results where
  total_fields : Nat
  correct_fields : Nat
  incorrect_fields : Nat
  missing_fields : Nat
  accuracy_percentage : PyNum
  field_details : List Comparison

/-- Fresh results, as set by `__init__` and by the reset in
`calculate_accuracy`. -/
def initResults : Results :=
  { total_fields := 0, correct_fields := 0, incorrect_fields := 0,
    missing_fields := 0, accuracy_percentage := PyNum.ofInt 0, field_details := [] }

/-- AccuracyCalculator._record_comparison: count the comparison into its
bucket by status and append it to the details. -/
def record_comparison (r : Results) (c : Comparison) : Results :=
  { total_fields := r.total_fields + 1
    correct_fields :=
      if c.status == "correct" || c.status == "correct_null" then r.correct_fields + 1
      else r.correct_fields
    incorrect_fields :=
      if c.status == "incorrect" || c.status == "false_positive" then r.incorrect_fields + 1
      else r.incorrect_fields
    missing_fields :=
      if c.status == "missing" then r.missing_fields + 1 else r.missing_fields
    accuracy_percentage := r.accuracy_percentage
    field_details := r.field_details ++ [c] }

/-- Metadata keys never compared. -/
def skip_fields : List String := ["extraction_timestamp", "source_file", "document_type"]

/-- Path extension for a dict key. -/
def child_path (path k : String) : String :=
  if path == "root" then k else path ++ "." ++ k

/-- Path extension for a list index. -/
def index_path (path : String) (i : Nat) : String :=
  path ++ "[" ++ toString i ++ "]"

/-- Leaf-field test of the traversal: a dict containing a `value` key. -/
def is_leaf_field : Json → Bool
  | .obj kvs => kvs.keyMem "value"
  | _ => false

/-- Default extracted field when the key is absent:
`{'value': None, 'confidence': 0.0}`. -/
def default_leaf : Json :=
  .obj (.cons "value" .null (.cons "confidence" (.num (PyNum.ofInt 0)) .nil))

mutual

/-- AccuracyCalculator.traverse_and_compare: walk the ground truth;
probe the extracted tree at matching keys/indices; skip silently on
container-kind mismatch or bare scalars. -/
def traverse_and_compare (extracted ground_truth : Json) (path : String)
    (r : Results) : Results :=
  match ground_truth, extracted with
  | .obj gkvs, .obj ekvs => travFields ekvs gkvs path r
  | .arr gs, .arr es => travList es gs path 0 r
  | _, _ => r

/-- The `for key in ground_truth.keys()` loop: `ekvs` is the whole
extracted dict, probed per key with `extracted.get(key, default)`. -/
def travFields (ekvs : JsonFields) (gkvs : JsonFields) (path : String)
    (r : Results) : Results :=
  match gkvs with
  | .nil => r
  | .cons k gv tl =>
    if skip_fields.contains k then travFields ekvs tl path r
    else
      if is_leaf_field gv then
        travFields ekvs tl path
          (record_comparison r
            (compare_field_structure (ekvs.dLookupD k default_leaf) gv (child_path path k)))
      else
        match gv with
        | .obj _ =>
          travFields ekvs tl path
            (traverse_and_compare (ekvs.dLookupD k (.obj .nil)) gv (child_path path k) r)
        | .arr _ =>
          travFields ekvs tl path
            (traverse_and_compare (ekvs.dLookupD k (.arr .nil)) gv (child_path path k) r)
        | _ => travFields ekvs tl path r

/-- The `for idx, gt_item in enumerate(ground_truth)` loop: the two lists
are consumed in parallel, which realises `extracted[idx] if
idx < len(extracted) else {}` — when the extracted list runs out the
ground-truth tail is compared against the empty-dict placeholder. -/
def travList (es gs : JsonList) (path : String) (i : Nat) (r : Results) : Results :=
  match gs with
  | .nil => r
  | .cons g gtl =>
    match es with
    | .nil => travList .nil gtl path (i + 1) (traverse_and_compare (.obj .nil) g (index_path path i) r)
    | .cons e etl => travList etl gtl path (i + 1) (traverse_and_compare e g (index_path path i) r)

end

/-- Python float division by a positive number — the only division the
source performs is `correct_fields / total_fields` with a positive
total. -/
def PyNum.divPos (a b : PyNum) : PyNum := ⟨a.num * b.den, a.den * b.num.toNat⟩

/-- The final step of `calculate_accuracy`: set
`accuracy_percentage = (correct_fields / total_fields) * 100` when any
field was counted. -/
def set_accuracy (r : Results) : Results :=
  if r.total_fields > 0 then
    let pct := PyNum.mul
      (PyNum.divPos (PyNum.ofInt r.correct_fields) (PyNum.ofInt r.total_fields))
      (PyNum.ofInt 100)
    { r with accuracy_percentage := pct }
  else r

/-- AccuracyCalculator.calculate_accuracy, from the two loaded value
trees: reset results, traverse from path "root", then set the accuracy
percentage. -/
def calculate_accuracy (extracted_data ground_truth_data : Json) : Results :=
  set_accuracy (traverse_and_compare extracted_data ground_truth_data "root" initResults)

/- ### Status and bucket layer for the comparison invariants -/

/-- The statuses that a recorded comparison can carry (the defensive
initial value "unknown" is deliberately absent). -/
def allowedStatus (s : String) : Bool :=
  s == "correct" || s == "correct_null" || s == "incorrect"
    || s == "missing" || s == "false_positive"

/-- Bucket of `correct_fields`. -/
def bucketCorrect (c : Comparison) : Bool :=
  c.status == "correct" || c.status == "correct_null"

/-- Bucket of `incorrect_fields`. -/
def bucketIncorrect (c : Comparison) : Bool :=
  c.status == "incorrect" || c.status == "false_positive"

/-- Bucket of `missing_fields`. -/
def bucketMissing (c : Comparison) : Bool :=
  c.status == "missing"

/-- The results invariant: counters agree with the recorded details under
the fixed status→bucket table, and every recorded status is one of the
five emitted ones. -/
def ResultsInv (r : Results) : Prop :=
  r.total_fields = r.field_details.length
    ∧ r.total_fields = r.correct_fields + r.incorrect_fields + r.missing_fields
    ∧ r.correct_fields = r.field_details.countP bucketCorrect
    ∧ r.incorrect_fields = r.field_details.countP bucketIncorrect
    ∧ r.missing_fields = r.field_details.countP bucketMissing
    ∧ ∀ c ∈ r.field_details, allowedStatus c.status = true

theorem initResults_inv : ResultsInv initResults := by
  simp [ResultsInv, initResults]

theorem compare_values_status_allowed (e g : Json) (p : String) :
    allowedStatus (compare_values e g p).status = true := by
  simp only [compare_values]
  split
  · split <;> rfl
  · split
    · rfl
    · split <;> rfl

theorem compare_field_structure_status_allowed (a b : Json) (p : String) :
    allowedStatus (compare_field_structure a b p).status = true := by
  simp only [compare_field_structure]
  exact compare_values_status_allowed _ _ _

theorem record_comparison_inv {r : Results} {c : Comparison} (h : ResultsInv r)
    (hc : allowedStatus c.status = true) : ResultsInv (record_comparison r c) := by
  obtain ⟨h1, h2, h3, h4, h5, h6⟩ := h
  have hcases : c.status = "correct" ∨ c.status = "correct_null" ∨ c.status = "incorrect"
      ∨ c.status = "missing" ∨ c.status = "false_positive" := by
    simp [allowedStatus] at hc
    tauto
  have hall : ∀ x ∈ r.field_details ++ [c], allowedStatus x.status = true := by
    intro x hx
    rcases List.mem_append.mp hx with hx | hx
    · exact h6 x hx
    · rcases List.mem_singleton.mp hx with rfl
      exact hc
  rcases hcases with h' | h' | h' | h' | h' <;>
    refine ⟨?_, ?_, ?_, ?_, ?_, hall⟩ <;>
      simp [record_comparison, bucketCorrect, bucketIncorrect, bucketMissing,
        List.countP_append, List.countP_cons, h', h1, h2, h3, h4, h5] <;>
      omega

mutual

theorem traverse_inv (e g : Json) (p : String) (r : Results) (h : ResultsInv r) :
    ResultsInv (traverse_and_compare e g p r) := by
  cases g <;> cases e <;> simp only [traverse_and_compare] <;>
    first
      | exact h
      | exact travFields_inv _ _ _ _ h
      | exact travList_inv _ _ _ _ _ h

theorem travFields_inv (ekvs gkvs : JsonFields) (p : String) (r : Results)
    (h : ResultsInv r) : ResultsInv (travFields ekvs gkvs p r) := by
  cases gkvs with
  | nil => simpa only [travFields] using h
  | cons k gv tl =>
    simp only [travFields]
    split
    · exact travFields_inv ekvs tl p r h
    · split
      · exact travFields_inv ekvs tl p _
          (record_comparison_inv h (compare_field_structure_status_allowed _ _ _))
      · split
        · exact travFields_inv ekvs tl p _ (traverse_inv _ _ _ _ h)
        · exact travFields_inv ekvs tl p _ (traverse_inv _ _ _ _ h)
        · exact travFields_inv ekvs tl p r h

theorem travList_inv (es gs : JsonList) (p : String) (i : Nat) (r : Results)
    (h : ResultsInv r) : ResultsInv (travList es gs p i r) := by
  cases gs with
  | nil => simpa only [travList] using h
  | cons g gtl =>
    cases es with
    | nil =>
      simp only [travList]
      exact travList_inv .nil gtl p (i + 1) _ (traverse_inv _ g _ _ h)
    | cons e etl =>
      simp only [travList]
      exact travList_inv etl gtl p (i + 1) _ (traverse_inv e g _ _ h)

end

theorem set_accuracy_inv {r : Results} (h : ResultsInv r) : ResultsInv (set_accuracy r) := by
  unfold set_accuracy
  split
  · obtain ⟨h1, h2, h3, h4, h5, h6⟩ := h
    exact ⟨h1, h2, h3, h4, h5, h6⟩
  · exact h

theorem calculate_accuracy_inv (e g : Json) : ResultsInv (calculate_accuracy e g) :=
  set_accuracy_inv (traverse_inv e g "root" initResults initResults_inv)

/- ### Self-comparison layer (idempotence of compare) -/

/-- No key occurs twice in a dict — automatically true of every real
Python dict; needed here because the embedding stores dicts as
association lists. -/
def noDupKeys : JsonFields → Bool
  | .nil => true
  | .cons k _ tl => !(tl.keyMem k) && noDupKeys tl

mutual

/-- Well-formed value tree: every dict anywhere in it has no duplicate
keys (the shape every JSON-loaded Python value has). -/
def wff : Json → Bool
  | .null => true
  | .bool _ => true
  | .num _ => true
  | .str _ => true
  | .arr xs => wffList xs
  | .obj kvs => noDupKeys kvs && wffFields kvs

def wffList : JsonList → Bool
  | .nil => true
  | .cons x tl => wff x && wffList tl

def wffFields : JsonFields → Bool
  | .nil => true
  | .cons _ v tl => wff v && wffFields tl

end

mutual

/-- Number of leaf-field comparisons the traversal records on this
(ground-truth) tree: leaves under the skip keys are not visited, bare
scalars inside containers are not recorded. -/
def selfLeafCount : Json → Nat
  | .obj kvs => selfLeafCountFields kvs
  | .arr xs => selfLeafCountList xs
  | _ => 0

def selfLeafCountFields : JsonFields → Nat
  | .nil => 0
  | .cons k v tl =>
    (if skip_fields.contains k then 0
     else if is_leaf_field v then 1
     else selfLeafCount v) + selfLeafCountFields tl

def selfLeafCountList : JsonList → Nat
  | .nil => 0
  | .cons x tl => selfLeafCount x + selfLeafCountList tl

end

/-- Membership of a key-value pair in a dict. -/
def FMem (k : String) (v : Json) : JsonFields → Prop
  | .nil => False
  | .cons k' v' tl => (k = k' ∧ v = v') ∨ FMem k v tl

theorem fmem_keyMem {k : String} {v : Json} :
    ∀ {kvs : JsonFields}, FMem k v kvs → kvs.keyMem k = true
  | .cons k' v' tl, h => by
    rcases h with ⟨rfl, rfl⟩ | h
    · simp [JsonFields.keyMem]
    · simp [JsonFields.keyMem, fmem_keyMem h]

theorem nodup_lookup : ∀ {kvs : JsonFields}, noDupKeys kvs = true → ∀ {k : String}
    {v : Json}, FMem k v kvs → kvs.dLookup k = some v
  | .cons k' v' tl, hnd, k, v, hm => by
    have hnd' : !(tl.keyMem k') = true ∧ noDupKeys tl = true := by
      simpa [noDupKeys, Bool.and_eq_true] using hnd
    rcases hm with ⟨rfl, rfl⟩ | hm
    · simp [JsonFields.dLookup]
    · have hk : k ≠ k' := by
        intro hkk
        subst hkk
        have := fmem_keyMem hm
        simp [this] at hnd'
      simp [JsonFields.dLookup, hk, nodup_lookup hnd'.2 hm]

theorem parseUnsigned_den_pos {cs : List Char} {x : PyNum}
    (h : parseUnsigned cs = some x) : 0 < x.den := by
  unfold parseUnsigned at h
  split at h
  · split at h
    · exact absurd h (by simp)
    · injection h with hx
      rw [← hx]
      exact Nat.one_pos
  · split at h
    · injection h with hx
      rw [← hx]
      exact pow_pos (by norm_num) _
    · exact absurd h (by simp)
  · exact absurd h (by simp)

theorem pyFloat_den_pos {s : String} {x : PyNum} (h : pyFloat s = some x) :
    0 < x.den := by
  unfold pyFloat at h
  split at h
  · rcases Option.map_eq_some'.mp h with ⟨y, hy, rfl⟩
    simpa [PyNum.neg] using parseUnsigned_den_pos hy
  · exact parseUnsigned_den_pos h
  · exact parseUnsigned_den_pos h

theorem stringFallback_self (v : Json) : stringFallback v v = true := by
  simp [stringFallback]

theorem values_match_self (v : Json) : values_match v v = true := by
  cases v with
  | str a =>
    unfold values_match
    split
    · rfl
    · cases hp : pyFloat (dropCommas a) with
      | none => simp [hp, stringFallback]
      | some x =>
        have hd := pyFloat_den_pos hp
        have hzero : x.num * ↑x.den + -x.num * ↑x.den = 0 := by ring
        simp [hp, PyNum.ltB, PyNum.absN, PyNum.sub, PyNum.add, PyNum.neg, hzero]
        positivity
  | null => unfold values_match; split <;> simp [stringFallback]
  | bool b => unfold values_match; split <;> simp [stringFallback]
  | num q => unfold values_match; split <;> simp [stringFallback]
  | arr xs => unfold values_match; split <;> simp [stringFallback]
  | obj kvs => unfold values_match; split <;> simp [stringFallback]

theorem compare_values_self (v : Json) (p : String) :
    (compare_values v v p).status = "correct"
      ∨ (compare_values v v p).status = "correct_null" := by
  unfold compare_values
  by_cases h1 : pyIsNullOrEmpty v = true
  · simp [h1]
  · simp [h1, values_match_self v]

theorem compare_field_structure_self (v : Json) (p : String) :
    (compare_field_structure v v p).status = "correct"
      ∨ (compare_field_structure v v p).status = "correct_null" := by
  unfold compare_field_structure
  exact compare_values_self _ _

/-- Effect of a stretch of the traversal on the four counters, when it
records `n` comparisons that all land in the correct bucket. -/
def SelfOut (r r' : Results) (n : Nat) : Prop :=
  r'.total_fields = r.total_fields + n
    ∧ r'.correct_fields = r.correct_fields + n
    ∧ r'.incorrect_fields = r.incorrect_fields
    ∧ r'.missing_fields = r.missing_fields

theorem selfOut_trans {r r1 r2 : Results} {n1 n2 : Nat} (h1 : SelfOut r r1 n1)
    (h2 : SelfOut r1 r2 n2) : SelfOut r r2 (n1 + n2) := by
  unfold SelfOut at *
  omega

theorem record_self {r : Results} {c : Comparison}
    (hc : c.status = "correct" ∨ c.status = "correct_null") :
    SelfOut r (record_comparison r c) 1 := by
  rcases hc with h | h <;> simp [SelfOut, record_comparison, h]

mutual

theorem traverse_self (g : Json) (p : String) (r : Results) (h : wff g = true) :
    SelfOut r (traverse_and_compare g g p r) (selfLeafCount g) := by
  cases g with
  | obj kvs =>
    have h' : noDupKeys kvs = true ∧ wffFields kvs = true := by
      simpa [wff, Bool.and_eq_true] using h
    simp only [traverse_and_compare, selfLeafCount]
    exact travFields_self kvs kvs p r h'.2 (fun k v hm => nodup_lookup h'.1 hm)
  | arr xs =>
    simp only [traverse_and_compare, selfLeafCount]
    exact travList_self xs p 0 r (by simpa [wff] using h)
  | null => simp [traverse_and_compare, selfLeafCount, SelfOut]
  | bool b => simp [traverse_and_compare, selfLeafCount, SelfOut]
  | num q => simp [traverse_and_compare, selfLeafCount, SelfOut]
  | str s => simp [traverse_and_compare, selfLeafCount, SelfOut]

theorem travFields_self (ekvs gkvs : JsonFields) (p : String) (r : Results)
    (hw : wffFields gkvs = true)
    (hlk : ∀ k v, FMem k v gkvs → ekvs.dLookup k = some v) :
    SelfOut r (travFields ekvs gkvs p r) (selfLeafCountFields gkvs) := by
  cases gkvs with
  | nil => simp [travFields, selfLeafCountFields, SelfOut]
  | cons k gv tl =>
    have hw' : wff gv = true ∧ wffFields tl = true := by
      simpa [wffFields, Bool.and_eq_true] using hw
    have hlk0 : ekvs.dLookup k = some gv := hlk k gv (Or.inl ⟨rfl, rfl⟩)
    have hlk' : ∀ k' v', FMem k' v' tl → ekvs.dLookup k' = some v' :=
      fun k' v' h' => hlk k' v' (Or.inr h')
    have hgetLeaf : ekvs.dLookupD k default_leaf = gv := by
      simp [JsonFields.dLookupD, hlk0]
    have hgetObj : ekvs.dLookupD k (.obj .nil) = gv := by
      simp [JsonFields.dLookupD, hlk0]
    have hgetArr : ekvs.dLookupD k (.arr .nil) = gv := by
      simp [JsonFields.dLookupD, hlk0]
    by_cases hskip : k ∈ skip_fields
    · have ih := travFields_self ekvs tl p r hw'.2 hlk'
      simpa [travFields, selfLeafCountFields, hskip] using ih
    · by_cases hleaf : is_leaf_field gv = true
      · have h1 := record_self (r := r) (compare_field_structure_self gv (child_path p k))
        have ih := travFields_self ekvs tl p
          (record_comparison r (compare_field_structure gv gv (child_path p k)))
          hw'.2 hlk'
        have h2 := selfOut_trans h1 ih
        simpa [travFields, selfLeafCountFields, hskip, hleaf, hgetLeaf] using h2
      · cases gv with
        | obj kvs2 =>
          have h1 := traverse_self (.obj kvs2) (child_path p k) r hw'.1
          have ih := travFields_self ekvs tl p
            (traverse_and_compare (.obj kvs2) (.obj kvs2) (child_path p k) r) hw'.2 hlk'
          have h2 := selfOut_trans h1 ih
          simpa [travFields, selfLeafCountFields, hskip, hleaf, hgetObj] using h2
        | arr xs2 =>
          have h1 := traverse_self (.arr xs2) (child_path p k) r hw'.1
          have ih := travFields_self ekvs tl p
            (traverse_and_compare (.arr xs2) (.arr xs2) (child_path p k) r) hw'.2 hlk'
          have h2 := selfOut_trans h1 ih
          simpa [travFields, selfLeafCountFields, hskip, hleaf, hgetArr] using h2
        | null =>
          have ih := travFields_self ekvs tl p r hw'.2 hlk'
          simpa [travFields, selfLeafCountFields, selfLeafCount, hskip, hleaf] using ih
        | bool b =>
          have ih := travFields_self ekvs tl p r hw'.2 hlk'
          simpa [travFields, selfLeafCountFields, selfLeafCount, hskip, hleaf] using ih
        | num q =>
          have ih := travFields_self ekvs tl p r hw'.2 hlk'
          simpa [travFields, selfLeafCountFields, selfLeafCount, hskip, hleaf] using ih
        | str s =>
          have ih := travFields_self ekvs tl p r hw'.2 hlk'
          simpa [travFields, selfLeafCountFields, selfLeafCount, hskip, hleaf] using ih

theorem travList_self (gs : JsonList) (p : String) (i : Nat) (r : Results)
    (hw : wffList gs = true) :
    SelfOut r (travList gs gs p i r) (selfLeafCountList gs) := by
  cases gs with
  | nil => simp [travList, selfLeafCountList, SelfOut]
  | cons g gtl =>
    have hw' : wff g = true ∧ wffList gtl = true := by
      simpa [wffList, Bool.and_eq_true] using hw
    have h1 := traverse_self g (index_path p i) r hw'.1
    have ih := travList_self gtl p (i + 1)
      (traverse_and_compare g g (index_path p i) r) hw'.2
    have h2 := selfOut_trans h1 ih
    simpa [travList, selfLeafCountList] using h2

end

theorem set_accuracy_fields (r : Results) :
    (set_accuracy r).total_fields = r.total_fields
      ∧ (set_accuracy r).correct_fields = r.correct_fields
      ∧ (set_accuracy r).incorrect_fields = r.incorrect_fields
      ∧ (set_accuracy r).missing_fields = r.missing_fields
      ∧ (set_accuracy r).field_details = r.field_details := by
  unfold set_accuracy
  split <;> simp

/-- C4: for every comparison run, total = correct + incorrect + missing,
total equals the number of recorded details, every recorded status is one
of the five emitted ones (never "unknown"), and the three counters agree
with the fixed status→bucket table over the details. -/
theorem c4_bucket_sum_invariant (e g : Json) :
    (calculate_accuracy e g).total_fields
        = (calculate_accuracy e g).correct_fields
          + (calculate_accuracy e g).incorrect_fields
          + (calculate_accuracy e g).missing_fields
      ∧ (calculate_accuracy e g).total_fields
          = (calculate_accuracy e g).field_details.length
      ∧ (∀ c ∈ (calculate_accuracy e g).field_details,
          c.status = "correct" ∨ c.status = "correct_null" ∨ c.status = "incorrect"
            ∨ c.status = "missing" ∨ c.status = "false_positive")
      ∧ (calculate_accuracy e g).correct_fields
          = (calculate_accuracy e g).field_details.countP bucketCorrect
      ∧ (calculate_accuracy e g).incorrect_fields
          = (calculate_accuracy e g).field_details.countP bucketIncorrect
      ∧ (calculate_accuracy e g).missing_fields
          = (calculate_accuracy e g).field_details.countP bucketMissing := by
  obtain ⟨g1, g2, g3, g4, g5, g6⟩ := calculate_accuracy_inv e g
  refine ⟨g2, g1, ?_, g3, g4, g5⟩
  intro c hc
  have := g6 c hc
  simp [allowedStatus] at this
  tauto

/-- C5: comparing a well-formed tree (no duplicate dict keys) with at
least one comparable leaf field against itself yields accuracy 100 and
no recorded comparison with status "incorrect" or "missing". -/
theorem c5_compare_self_idempotent (X : Json) (h1 : wff X = true)
    (h2 : 0 < selfLeafCount X) :
    (calculate_accuracy X X).accuracy_percentage.toRat = 100
      ∧ ∀ c ∈ (calculate_accuracy X X).field_details,
          c.status ≠ "incorrect" ∧ c.status ≠ "missing" := by
  have hself := traverse_self X "root" initResults h1
  obtain ⟨ht, hc, hi, hm⟩ := hself
  rw [show initResults.total_fields = 0 from rfl] at ht
  rw [show initResults.correct_fields = 0 from rfl] at hc
  rw [show initResults.incorrect_fields = 0 from rfl] at hi
  rw [show initResults.missing_fields = 0 from rfl] at hm
  simp only [Nat.zero_add] at ht hc
  have hcalc : calculate_accuracy X X
      = set_accuracy (traverse_and_compare X X "root" initResults) := rfl
  obtain ⟨f1, f2, f3, f4, f5⟩ :=
    set_accuracy_fields (traverse_and_compare X X "root" initResults)
  constructor
  · have hpos : (traverse_and_compare X X "root" initResults).total_fields > 0 := by
      omega
    have hacc : (calculate_accuracy X X).accuracy_percentage
        = PyNum.mul
            (PyNum.divPos
              (PyNum.ofInt (traverse_and_compare X X "root" initResults).correct_fields)
              (PyNum.ofInt (traverse_and_compare X X "root" initResults).total_fields))
            (PyNum.ofInt 100) := by
      rw [hcalc]
      unfold set_accuracy
      rw [if_pos hpos]
    rw [hacc, ht, hc]
    have hne : ((selfLeafCount X : Int) : ℚ) ≠ 0 := by
      have : (0:Int) < (selfLeafCount X : Int) := by exact_mod_cast h2
      exact_mod_cast this.ne'
    simp only [PyNum.toRat, PyNum.mul, PyNum.divPos, PyNum.ofInt]
    push_cast
    field_simp
  · obtain ⟨g1, g2, g3, g4, g5, g6⟩ := calculate_accuracy_inv X X
    have hio : (calculate_accuracy X X).incorrect_fields = 0 := by
      rw [hcalc, f3]
      omega
    have hmo : (calculate_accuracy X X).missing_fields = 0 := by
      rw [hcalc, f4]
      omega
    have hbi := List.countP_eq_zero.mp (by omega : (calculate_accuracy X X).field_details.countP bucketIncorrect = 0)
    have hbm := List.countP_eq_zero.mp (by omega : (calculate_accuracy X X).field_details.countP bucketMissing = 0)
    intro c hcm
    constructor
    · intro heq
      exact hbi c hcm (by simp [bucketIncorrect, heq])
    · intro heq
      exact hbm c hcm (by simp [bucketMissing, heq])

theorem c5_compare_self_idempotent_witness :
    (calculate_accuracy (.obj (.cons "f" (.obj (.cons "value" (.str "1") .nil)) .nil))
        (.obj (.cons "f" (.obj (.cons "value" (.str "1") .nil)) .nil))).accuracy_percentage.toRat
        = 100
      ∧ ∀ c ∈ (calculate_accuracy
            (.obj (.cons "f" (.obj (.cons "value" (.str "1") .nil)) .nil))
            (.obj (.cons "f" (.obj (.cons "value" (.str "1") .nil)) .nil))).field_details,
          c.status ≠ "incorrect" ∧ c.status ≠ "missing" :=
  c5_compare_self_idempotent _ (by decide) (by decide)

/-- C6: at a leaf, a null/empty ground truth yields "correct_null" when
the extraction is also null/empty and "false_positive" otherwise (never
"correct"); a populated ground truth against a null/empty extraction
yields "missing". -/
theorem c6_null_and_missing_statuses (extracted ground_truth : Json) (p : String) :
    (pyIsNullOrEmpty ground_truth = true →
        (compare_values extracted ground_truth p).status
          = (if pyIsNullOrEmpty extracted then "correct_null" else "false_positive"))
      ∧ (pyIsNullOrEmpty ground_truth = false → pyIsNullOrEmpty extracted = true →
          (compare_values extracted ground_truth p).status = "missing") := by
  constructor
  · intro h
    simp [compare_values, h]
  · intro h hg
    simp [compare_values, h, hg]

theorem c6_null_and_missing_statuses_witness :
    (compare_values (.str "x") .null "p").status = "false_positive"
      ∧ (compare_values .null (.str "y") "p").status = "missing" := by
  constructor
  · have h := (c6_null_and_missing_statuses (.str "x") .null "p").1 (by decide)
    simpa using h
  · exact (c6_null_and_missing_statuses .null (.str "y") "p").2 (by decide) (by decide)

/- ### Bridges between PyNum comparisons and rational values -/

theorem PyNum.ltB_iff {a b : PyNum} (ha : 0 < a.den) (hb : 0 < b.den) :
    (PyNum.ltB a b = true) ↔ a.toRat < b.toRat := by
  have ha' : (0:ℚ) < (a.den : ℚ) := by exact_mod_cast ha
  have hb' : (0:ℚ) < (b.den : ℚ) := by exact_mod_cast hb
  rw [PyNum.toRat, PyNum.toRat, div_lt_div_iff₀ ha' hb']
  constructor
  · intro h
    have h' : a.num * (b.den : Int) < b.num * (a.den : Int) := of_decide_eq_true h
    exact_mod_cast h'
  · intro h
    apply decide_eq_true
    exact_mod_cast h

theorem PyNum.sub_den_pos {a b : PyNum} (ha : 0 < a.den) (hb : 0 < b.den) :
    0 < (a.sub b).den := by
  simp only [PyNum.sub, PyNum.add, PyNum.neg]
  positivity

theorem PyNum.absN_den {a : PyNum} : a.absN.den = a.den := by
  unfold PyNum.absN
  split <;> rfl

theorem PyNum.toRat_sub {a b : PyNum} (ha : 0 < a.den) (hb : 0 < b.den) :
    (a.sub b).toRat = a.toRat - b.toRat := by
  have ha' : ((a.den : ℚ)) ≠ 0 := by
    exact_mod_cast ha.ne'
  have hb' : ((b.den : ℚ)) ≠ 0 := by
    exact_mod_cast hb.ne'
  simp only [PyNum.sub, PyNum.add, PyNum.neg, PyNum.toRat]
  push_cast
  field_simp
  ring

theorem PyNum.toRat_absN (a : PyNum) : a.absN.toRat = |a.toRat| := by
  unfold PyNum.absN PyNum.toRat
  rw [abs_div]
  have hden : |((a.den : ℚ))| = (a.den : ℚ) := abs_of_nonneg (by positivity)
  split
  · have hnum : |((a.num : ℚ))| = -(a.num : ℚ) := by
      apply abs_of_neg
      simp only [Int.cast_lt_zero]
      assumption
    rw [hden, hnum]
    push_cast
    ring_nf
  · have hnum : |((a.num : ℚ))| = (a.num : ℚ) := by
      apply abs_of_nonneg
      simp only [Int.cast_nonneg]
      omega
    rw [hden, hnum]

/-- C7: for two strings that both parse as numbers after stripping
thousands separators, the value-match predicate accepts exactly when the
absolute difference of the parsed decimal values is strictly below 0.01;
in particular it accepts ("100.00", "100.009") and rejects
("100.00", "100.02"). -/
theorem c7_numeric_tolerance :
    (∀ (a b : String) (x y : PyNum),
        pyFloat (dropCommas a) = some x → pyFloat (dropCommas b) = some y →
        (values_match (.str a) (.str b) = true ↔ |x.toRat - y.toRat| < 1 / 100))
      ∧ values_match (.str "100.00") (.str "100.009") = true
      ∧ values_match (.str "100.00") (.str "100.02") = false := by
  refine ⟨?_, by decide, by decide⟩
  intro a b x y hx hy
  have hdx := pyFloat_den_pos hx
  have hdy := pyFloat_den_pos hy
  unfold values_match
  by_cases he : pyEq (.str a) (.str b) = true
  · simp only [he, if_true, true_iff]
    have hab : a = b := by
      simpa [pyEq] using he
    subst hab
    have hxy : x = y := by
      rw [hx] at hy
      injection hy
    subst hxy
    simp
  · simp only [he, if_false]
    rw [hx, hy]
    show ((x.sub y).absN.ltB ⟨1, 100⟩ = true) ↔ |x.toRat - y.toRat| < 1 / 100
    have hsub := PyNum.sub_den_pos hdx hdy
    have habs : 0 < (x.sub y).absN.den := by
      rw [PyNum.absN_den]
      exact hsub
    rw [PyNum.ltB_iff habs (by norm_num : 0 < (⟨1, 100⟩ : PyNum).den)]
    rw [PyNum.toRat_absN, PyNum.toRat_sub hdx hdy]
    norm_num [PyNum.toRat]

theorem c7_numeric_tolerance_witness :
    values_match (.str "2.00") (.str "2.005") = true :=
  (c7_numeric_tolerance.1 "2.00" "2.005" ⟨200, 100⟩ ⟨2005, 1000⟩
      (by decide) (by decide)).mpr
    (by norm_num [PyNum.toRat, abs_lt])

instance {α β : Type} [DecidableEq α] [DecidableEq β] : DecidableEq (Except α β) :=
  fun a b =>
  match a, b with
  | .ok x, .ok y =>
    if h : x = y then .isTrue (by rw [h]) else .isFalse (by simp [h])
  | .error x, .error y =>
    if h : x = y then .isTrue (by rw [h]) else .isFalse (by simp [h])
  | .ok _, .error _ => .isFalse (by simp)
  | .error _, .ok _ => .isFalse (by simp)

/- ### Concrete schemas for the validator scenarios -/

/-- A leaf field carrying one year entry. -/
def yearsField (y v : String) : Json :=
  .obj (.cons "years" (.obj (.cons y (.str v) .nil)) .nil)

/-- The spec's accounting-equation scenario schema, with the equity value
as a parameter: AssetsTotal 1000, LiabilitiesTotal 600,
Equity.TotalEquity `equity`, each under year 2020. -/
def eqSchema (equity : String) : JsonFields :=
  .cons "AssetsTotal" (yearsField "2020" "1000")
    (.cons "LiabilitiesTotal" (yearsField "2020" "600")
      (.cons "Equity" (.obj (.cons "TotalEquity" (yearsField "2020" equity) .nil)) .nil))

/-- The accounting-equation failure message of the 1000/600/398 run. -/
def eqFail398Msg : String :=
  "Accounting equation failed: Assets (1000.0) ≠ Liabilities (600.0) + Equity (398.0)"

/-- C1 (code bug): on a schema whose accounting equation fails, the check-1
error is among the errors and status is FAIL, yet
`accounting_equation_valid` is still `true`, because the result assembly
filters the errors for the lowercase substring "accounting equation",
which never occurs in the capitalised message "Accounting equation
failed: ...". -/
theorem c1_accounting_equation_valid_stuck_true :
    validate_mapped_data (eqSchema "398") = .ok {
        accounting_equation_valid := true
        total_errors := 1
        total_warnings := 0
        errors := [eqFail398Msg]
        warnings := []
        status := "FAIL" }
      ∧ containsText "accounting equation" eqFail398Msg = false
      ∧ containsText "Accounting equation failed" eqFail398Msg = true := by
  refine ⟨by decide, by decide, by decide⟩

/-- A schema inside C2's input family (a mapping with a CurrentAssets
section whose sibling field has an empty years mapping) on which the
validator raises: the subtotal check computes
`sum([None])`, a TypeError, with no try/except around it. -/
def subtotalsCrashSchema : JsonFields :=
  .cons "CurrentAssets"
    (.obj (.cons "TotalCurrentAssets" (yearsField "2020" "100")
      (.cons "Inventories" (.obj (.cons "years" (.obj .nil) .nil)) .nil)))
    .nil

/-- C2 (code bug): `validate_mapped_data` raises instead of returning a
ValidationResult on a schema whose CurrentAssets sibling has no numeric
representative value — `sum` over a list containing `None` is a
TypeError, and `_validate_subtotals` has no exception handler. -/
theorem c2_validator_raises_on_missing_component :
    validate_mapped_data subtotalsCrashSchema = .error "TypeError" := by
  decide

/-- C3 (counterexample): with Equity.TotalEquity = "399" the difference
`abs(1000 - (600 + 399)) = 1` is within the 1-unit tolerance (`> 1` is
the error condition), so validation yields zero errors and PASS — not
the one error and FAIL the claim asserts. -/
theorem c3_counterexample_399_passes :
    validate_mapped_data (eqSchema "399") = .ok {
        accounting_equation_valid := true
        total_errors := 0
        total_warnings := 0
        errors := []
        warnings := []
        status := "PASS" } := by
  decide

/-- C3 (amended): the 1000/600/400 schema validates with
`accounting_equation_valid = true` and zero errors; "399" stays within
the 1-unit rounding tolerance (still zero errors, PASS); "398" triggers
exactly one error, mentioning "Accounting equation failed" and the three
values 1000, 600, 398, with status FAIL. -/
theorem c3_accounting_equation_scenarios :
    validate_mapped_data (eqSchema "400") = .ok {
        accounting_equation_valid := true
        total_errors := 0
        total_warnings := 0
        errors := []
        warnings := []
        status := "PASS" }
      ∧ validate_mapped_data (eqSchema "399") = .ok {
        accounting_equation_valid := true
        total_errors := 0
        total_warnings := 0
        errors := []
        warnings := []
        status := "PASS" }
      ∧ validate_mapped_data (eqSchema "398") = .ok {
        accounting_equation_valid := true
        total_errors := 1
        total_warnings := 0
        errors := [eqFail398Msg]
        warnings := []
        status := "FAIL" }
      ∧ containsText "Accounting equation failed" eqFail398Msg = true
      ∧ containsText "1000" eqFail398Msg = true
      ∧ containsText "600" eqFail398Msg = true
      ∧ containsText "398" eqFail398Msg = true := by
  refine ⟨by decide, by decide, by decide, by decide, by decide, by decide, by decide⟩

/- ### Subtotal-check family: a CurrentAssets section with parsed values -/

/-- Sibling component fields, each with one 2020 year-value string. -/
def mkCompFields : List (String × String) → JsonFields
  | [] => .nil
  | (n, v) :: rest => .cons n (yearsField "2020" v) (mkCompFields rest)

/-- A schema holding only a CurrentAssets section: the TotalCurrentAssets
field (year value `ts`) followed by the named component fields. -/
def mkCASchema (ts : String) (comps : List (String × String)) : JsonFields :=
  .cons "CurrentAssets"
    (.obj (.cons "TotalCurrentAssets" (yearsField "2020" ts) (mkCompFields comps)))
    .nil

/-- The component list is well-behaved: no component shadows the total's
key, and every value string parses (to the paired number). -/
def CompsParse : List (String × String) → List PyNum → Prop
  | [], [] => True
  | (n, v) :: rest, q :: qs =>
    n ≠ "TotalCurrentAssets" ∧ pyFloat (dropCommasSpaces v) = some q
      ∧ CompsParse rest qs
  | _, _ => False

/-- Python `sum` over the parsed component values. -/
def sumPy : List PyNum → PyNum
  | [] => PyNum.ofInt 0
  | q :: tl => q.add (sumPy tl)

theorem exceptBind_ok {α β γ : Type} (x : β) (f : β → Except α γ) :
    Except.bind (Except.ok x) f = f x := rfl

theorem extract_years_single {v : String} {q : PyNum}
    (h : pyFloat (dropCommasSpaces v) = some q) :
    extract_numeric_go (.cons "2020" (.str v) .nil) = some q := by
  by_cases hv : v = ""
  · subst hv
    rw [show pyFloat (dropCommasSpaces "") = none from by decide] at h
    exact Option.noConfusion h
  · simp [extract_numeric_go, hv, h]

theorem component_values_mk : ∀ (comps : List (String × String)) (qs : List PyNum),
    CompsParse comps qs → component_values (mkCompFields comps) = .ok (List.map some qs)
  | [], [], _ => rfl
  | (n, v) :: rest, q :: qs, h => by
    obtain ⟨hn, hv, hrest⟩ := h
    have ih := component_values_mk rest qs hrest
    simp [mkCompFields, component_values, hn, yearsField, JsonFields.dLookupD,
      JsonFields.dLookup, extract_numeric_value, extract_years_single hv, ih]
    rfl
  | [], _ :: _, h => absurd h (by simp [CompsParse])
  | _ :: _, [], h => by
    obtain ⟨n, v⟩ := ‹_ × _›
    exact absurd h (by simp [CompsParse])

theorem pySum_map_some : ∀ qs : List PyNum, pySum (List.map some qs) = .ok (sumPy qs)
  | [] => rfl
  | q :: qs => by
    simp [List.map, pySum, sumPy, pySum_map_some qs]
    rfl

theorem CompsParse_den_pos : ∀ (comps : List (String × String)) (qs : List PyNum),
    CompsParse comps qs → 0 < (sumPy qs).den
  | [], [], _ => by simp [sumPy, PyNum.ofInt]
  | (n, v) :: rest, q :: qs, h => by
    obtain ⟨hn, hv, hrest⟩ := h
    have h1 := pyFloat_den_pos hv
    have h2 := CompsParse_den_pos rest qs hrest
    simp only [sumPy, PyNum.add]
    positivity
  | [], _ :: _, h => absurd h (by simp [CompsParse])
  | _ :: _, [], h => by
    obtain ⟨n, v⟩ := ‹_ × _›
    exact absurd h (by simp [CompsParse])

theorem PyNum.truthy_iff {a : PyNum} (ha : 0 < a.den) :
    (a.truthy = true) ↔ a.toRat ≠ 0 := by
  unfold PyNum.truthy PyNum.toRat
  rcases eq_or_ne a.num 0 with h0 | h0
  · simp [h0]
  · simp only [bne_iff_ne, ne_eq, h0, not_false_eq_true, true_iff]
    exact div_ne_zero (by exact_mod_cast h0) (by exact_mod_cast ha.ne')

theorem PyNum.toRat_mul (a b : PyNum) : (a.mul b).toRat = a.toRat * b.toRat := by
  simp only [PyNum.mul, PyNum.toRat]
  push_cast
  rw [div_mul_div_comm]

/-- Unfolding of the subtotal check on the CurrentAssets family: the
check warns exactly when the code's boolean guard (truthiness of the
total and of the component sum, and the cross-multiplied 1% comparison)
holds, and never contributes an error. -/
theorem validate_subtotals_mkCA (ts : String) (t : PyNum)
    (comps : List (String × String)) (qs : List PyNum)
    (hts : pyFloat (dropCommasSpaces ts) = some t)
    (hcs : CompsParse comps qs) :
    validate_subtotals (mkCASchema ts comps)
      = .ok ([], if t.truthy && (sumPy qs).truthy
              && PyNum.ltB ((sumPy qs).mul ⟨1, 100⟩) (PyNum.absN (t.sub (sumPy qs)))
            then [subtotalMsg t (sumPy qs)] else []) := by
  have e1 := extract_years_single hts
  have e2 := component_values_mk comps qs hcs
  have key : validate_subtotals (mkCASchema ts comps)
      = Except.bind (Except.ok (extract_numeric_go (.cons "2020" (.str ts) .nil)))
          (fun total => Except.bind
            (component_values (mkCompFields comps))
            (fun cs => Except.bind (pySum cs) (fun s =>
              if truthyOptNum total && s.truthy
                  && PyNum.ltB (s.mul ⟨1, 100⟩)
                    (PyNum.absN ((total.getD (PyNum.ofInt 0)).sub s))
                then .ok ([], [subtotalMsg (total.getD (PyNum.ofInt 0)) s])
                else .ok ([], [])))) := rfl
  rw [key, e1, e2]
  show (Except.bind (pySum (List.map some qs)) fun s =>
      if truthyOptNum (some t) && s.truthy
          && PyNum.ltB (s.mul ⟨1, 100⟩)
            (PyNum.absN (((some t).getD (PyNum.ofInt 0)).sub s))
        then Except.ok ([], [subtotalMsg ((some t).getD (PyNum.ofInt 0)) s])
        else Except.ok ([], [])) = _
  rw [pySum_map_some qs]
  show (if t.truthy && (sumPy qs).truthy
        && PyNum.ltB ((sumPy qs).mul ⟨1, 100⟩) (PyNum.absN (t.sub (sumPy qs)))
      then Except.ok ([], [subtotalMsg t (sumPy qs)])
      else Except.ok (([] : List String), ([] : List String))) = _
  split <;> rfl

/-- C8 (amended): over the CurrentAssets family, the subtotal check
contributes no errors, and warns exactly when the representative total
and the component sum are both nonzero AND they differ by strictly more
than 1% of the component sum; concretely, against components summing to
1000, a total of 1010 yields no warning (difference equal to the
tolerance), 1012 yields exactly one warning, and 1005 yields none. -/
theorem c8_subtotal_tolerance :
    (∀ (ts : String) (t : PyNum) (comps : List (String × String)) (qs : List PyNum),
        pyFloat (dropCommasSpaces ts) = some t → CompsParse comps qs →
        validate_subtotals (mkCASchema ts comps)
          = .ok ([], if t.toRat ≠ 0 ∧ (sumPy qs).toRat ≠ 0
                  ∧ (sumPy qs).toRat * (1 / 100) < |t.toRat - (sumPy qs).toRat|
                then [subtotalMsg t (sumPy qs)] else []))
      ∧ validate_subtotals (mkCASchema "1010" [("A", "300"), ("B", "300"), ("C", "400")])
          = .ok ([], [])
      ∧ validate_subtotals (mkCASchema "1012" [("A", "300"), ("B", "300"), ("C", "400")])
          = .ok ([], ["CurrentAssets total (1012.0) differs from sum of components (1000.0)"])
      ∧ validate_subtotals (mkCASchema "1005" [("A", "300"), ("B", "300"), ("C", "400")])
          = .ok ([], []) := by
  refine ⟨?_, by decide, by decide, by decide⟩
  intro ts t comps qs hts hcs
  rw [validate_subtotals_mkCA ts t comps qs hts hcs]
  have hdt := pyFloat_den_pos hts
  have hds := CompsParse_den_pos comps qs hcs
  have hmden : 0 < ((sumPy qs).mul ⟨1, 100⟩).den := by
    simp only [PyNum.mul]
    positivity
  have habsden : 0 < (PyNum.absN (t.sub (sumPy qs))).den := by
    rw [PyNum.absN_den]
    exact PyNum.sub_den_pos hdt hds
  have h100 : (⟨1, 100⟩ : PyNum).toRat = 1 / 100 := by
    norm_num [PyNum.toRat]
  have hiff : (t.truthy && (sumPy qs).truthy
      && PyNum.ltB ((sumPy qs).mul ⟨1, 100⟩) (PyNum.absN (t.sub (sumPy qs)))) = true
      ↔ (t.toRat ≠ 0 ∧ (sumPy qs).toRat ≠ 0
          ∧ (sumPy qs).toRat * (1 / 100) < |t.toRat - (sumPy qs).toRat|) := by
    rw [Bool.and_eq_true, Bool.and_eq_true]
    rw [PyNum.truthy_iff hdt, PyNum.truthy_iff hds]
    rw [PyNum.ltB_iff hmden habsden]
    rw [PyNum.toRat_mul, PyNum.toRat_absN, PyNum.toRat_sub hdt hds, h100]
    tauto
  by_cases hp : (t.toRat ≠ 0 ∧ (sumPy qs).toRat ≠ 0
      ∧ (sumPy qs).toRat * (1 / 100) < |t.toRat - (sumPy qs).toRat|)
  · rw [hiff.mpr hp, if_pos hp]
    rfl
  · have hbf : (t.truthy && (sumPy qs).truthy
        && PyNum.ltB ((sumPy qs).mul ⟨1, 100⟩) (PyNum.absN (t.sub (sumPy qs)))) = false :=
      Bool.eq_false_iff.mpr (fun hb => hp (hiff.mp hb))
    rw [hbf, if_neg hp]
    rfl

theorem c8_subtotal_tolerance_witness :
    validate_subtotals (mkCASchema "1012" [("A", "300"), ("B", "300"), ("C", "400")])
      = .ok ([], if (PyNum.ofInt 1012).toRat ≠ 0
              ∧ (sumPy [PyNum.ofInt 300, PyNum.ofInt 300, PyNum.ofInt 400]).toRat ≠ 0
              ∧ (sumPy [PyNum.ofInt 300, PyNum.ofInt 300, PyNum.ofInt 400]).toRat * (1 / 100)
                < |(PyNum.ofInt 1012).toRat
                    - (sumPy [PyNum.ofInt 300, PyNum.ofInt 300, PyNum.ofInt 400]).toRat|
            then [subtotalMsg (PyNum.ofInt 1012)
                (sumPy [PyNum.ofInt 300, PyNum.ofInt 300, PyNum.ofInt 400])]
            else []) :=
  c8_subtotal_tolerance.1 "1012" (PyNum.ofInt 1012)
    [("A", "300"), ("B", "300"), ("C", "400")]
    [PyNum.ofInt 300, PyNum.ofInt 300, PyNum.ofInt 400]
    (by decide) ⟨by decide, by decide, by decide, by decide, by decide, by decide, trivial⟩

/-- C8 (counterexample to the claim as stated): a representative total of
0 against components summing to 1000 differs by far more than 1% of the
component sum, yet the truthiness guard suppresses the warning. -/
theorem c8_counterexample_zero_total :
    validate_subtotals (mkCASchema "0" [("Inventories", "1000")]) = .ok ([], [])
      ∧ extract_numeric_go (.cons "2020" (.str "0") .nil) = some (PyNum.ofInt 0)
      ∧ component_values (mkCompFields [("Inventories", "1000")])
          = .ok [some (PyNum.ofInt 1000)]
      ∧ (PyNum.ofInt 1000).toRat * (1 / 100)
          < |(PyNum.ofInt 0).toRat - (PyNum.ofInt 1000).toRat| := by
  refine ⟨by decide, by decide, by decide, by norm_num [PyNum.toRat, PyNum.ofInt, abs_lt]⟩

/-- C10: when the representative value of TotalCurrentAssets is 0, or the
component sum is 0, the subtotal check emits nothing at all, however far
the two diverge — the guard tests truthiness, not mere presence. -/
theorem c10_subtotal_zero_guard (ts : String) (t : PyNum)
    (comps : List (String × String)) (qs : List PyNum)
    (hts : pyFloat (dropCommasSpaces ts) = some t)
    (hcs : CompsParse comps qs)
    (hzero : t.toRat = 0 ∨ (sumPy qs).toRat = 0) :
    validate_subtotals (mkCASchema ts comps) = .ok ([], []) := by
  rw [validate_subtotals_mkCA ts t comps qs hts hcs]
  have hdt := pyFloat_den_pos hts
  have hds := CompsParse_den_pos comps qs hcs
  have hbf : (t.truthy && (sumPy qs).truthy
      && PyNum.ltB ((sumPy qs).mul ⟨1, 100⟩) (PyNum.absN (t.sub (sumPy qs)))) = false := by
    rcases hzero with h0 | h0
    · have ht : t.truthy = false :=
        Bool.eq_false_iff.mpr (fun hb => (PyNum.truthy_iff hdt).mp hb h0)
      simp [ht]
    · have hs : (sumPy qs).truthy = false :=
        Bool.eq_false_iff.mpr (fun hb => (PyNum.truthy_iff hds).mp hb h0)
      simp [hs]
  rw [hbf]
  rfl

theorem c10_subtotal_zero_guard_witness :
    validate_subtotals (mkCASchema "0" [("Inventories", "1000")]) = .ok ([], []) :=
  c10_subtotal_zero_guard "0" (PyNum.ofInt 0) [("Inventories", "1000")]
    [PyNum.ofInt 1000] (by decide) ⟨by decide, by decide, trivial⟩
    (Or.inl (by norm_num [PyNum.toRat, PyNum.ofInt]))

/- ### Unmapped-items family -/

/-- One unmapped item: a dict with a string `label_raw`, or an item
lacking the key entirely. -/
def mkItem : Option String → Json
  | some l => .obj (.cons "label_raw" (.str l) .nil)
  | none => .obj .nil

def mkItems : List (Option String) → JsonList
  | [] => .nil
  | o :: rest => .cons (mkItem o) (mkItems rest)

/-- A schema holding only `unmapped_items.items`. -/
def mkUnmappedSchema (ls : List (Option String)) : JsonFields :=
  .cons "unmapped_items" (.obj (.cons "items" (.arr (mkItems ls)) .nil)) .nil

/-- The keyword warnings the triage emits: one per item whose lowercased
raw label contains one of the critical keywords (an absent label reads as
the empty string and never warns). -/
def keyword_warnings : List (Option String) → List String
  | [] => []
  | some l :: rest =>
    (if critical_keywords.any (fun kw => containsText kw (pyLowerStr l)) then
      [unmappedItemMsg (.str l)]
    else []) ++ keyword_warnings rest
  | none :: rest => keyword_warnings rest

theorem mkItems_jLen : ∀ ls : List (Option String), (mkItems ls).jLen = ls.length
  | [] => rfl
  | o :: rest => by
    simp [mkItems, JsonList.jLen, mkItems_jLen rest]

theorem unmapped_item_warnings_mk : ∀ ls : List (Option String),
    unmapped_item_warnings ((mkItems ls).toList) = .ok (keyword_warnings ls)
  | [] => rfl
  | some l :: rest => by
    simp [mkItems, JsonList.toList, mkItem, unmapped_item_warnings, pyGetD,
      JsonFields.dLookupD, JsonFields.dLookup, pyLower, keyword_warnings,
      unmapped_item_warnings_mk rest]
    rfl
  | none :: rest => by
    have hkw : (critical_keywords.any fun kw => containsText kw (pyLowerStr "")) = false := by
      decide
    simp [mkItems, JsonList.toList, mkItem, unmapped_item_warnings, pyGetD,
      JsonFields.dLookupD, JsonFields.dLookup, pyLower, keyword_warnings, hkw,
      unmapped_item_warnings_mk rest]
    rfl

/-- C9: over the unmapped-items family, the triage warns about a high
item count exactly when more than 10 items are unmapped, and
independently warns once per item whose raw label contains,
case-insensitively, one of total/assets/liabilities/equity; an item
labelled "Total Reserves" warns (referencing the label), one labelled
"Miscellaneous Note 12" does not. -/
theorem c9_unmapped_items_triage :
    (∀ ls : List (Option String),
        validate_unmapped_items (mkUnmappedSchema ls)
          = .ok ([], (if ls.length > 10 then
                ["High number of unmapped items (" ++ toString ls.length
                  ++ "). Check schema coverage."]
              else []) ++ keyword_warnings ls))
      ∧ validate_unmapped_items (mkUnmappedSchema [some "Total Reserves"])
          = .ok ([], ["Potentially important item unmapped: \x27Total Reserves\x27"])
      ∧ validate_unmapped_items (mkUnmappedSchema [some "Miscellaneous Note 12"])
          = .ok ([], []) := by
  refine ⟨?_, by decide, by decide⟩
  intro ls
  have key : validate_unmapped_items (mkUnmappedSchema ls)
      = Except.bind (unmapped_item_warnings ((mkItems ls).toList))
          (fun ws => .ok ([], (if (mkItems ls).jLen > 10 then
              ["High number of unmapped items (" ++ toString (mkItems ls).jLen
                ++ "). Check schema coverage."]
            else []) ++ ws)) := rfl
  rw [key, unmapped_item_warnings_mk ls, mkItems_jLen ls]
  rfl
